import Mathlib

/-!
Verification of the multi-source frame ingestion and recording engine
(src/tcp_camera_server.py and src/main.py), as a shallow embedding.

Byte streams are `List Nat` (each element one byte), images carry their
width, height and pixel payload, and the mutable Qt application object is
an explicit `AppState` record threaded through the event handlers.
-/

/-- A decoded image: width, height and the raw pixel payload.
Mirrors the data carried by a `QImage` as far as the recording core reads it
(`image.width()`, `image.height()`, the pixel buffer). -/
structure Image where
  width : Nat
  height : Nat
  data : List Nat
deriving DecidableEq

/-- Big-endian interpretation of a byte list, as `struct.unpack` with format
`>I` does for the 4-byte length header in `_handle_client`. -/
def bytes_be (bs : List Nat) : Nat :=
  bs.foldl (fun a b => a * 256 + b) 0

/-- The 4 big-endian bytes a sender emits for a length value below 2^32
(the `>I` wire format of the length header). -/
def to_be4 (n : Nat) : List Nat :=
  [n / 16777216 % 256, n / 65536 % 256, n / 256 % 256, n % 256]

/-- One wire unit of the frame protocol: 4 length bytes then the payload. -/
def encode_unit (p : List Nat) : List Nat :=
  to_be4 p.length ++ p

/-- Number of bytes one `sock.recv` call hands back inside `_recv_all`:
the code requests `min(size - len(data), 4096)`; the transport offers some
positive amount (`sched` entry, normalized to at least 1 byte since a ready
socket never returns an empty chunk unless the peer closed), and at most the
bytes still in flight. -/
def chunk_size (size : Nat) (sched : List Nat) (bs acc : List Nat) : Nat :=
  min (min (size - acc.length) 4096) (min (max 1 (sched.headD 4096)) bs.length)

/-- Embedding of `TcpCameraServer._recv_all` (src/tcp_camera_server.py:111).
`bs` is the byte sequence still deliverable on the socket before the peer
closes; `sched` schedules how many bytes each `recv` call returns, modelling
short reads; `acc` is the `data` accumulator. An exhausted `bs` is a closed
connection: `recv` returns an empty chunk and the function returns `b''`.
`socket.timeout` iterations change no state and are elided; a loop entered
with `self.running` false returns the accumulator unchanged. -/
def recv_all_go (running : Bool) (size : Nat) (sched bs acc : List Nat) : List Nat :=
  if size ≤ acc.length then acc
  else if running = false then acc
  else if bs.length = 0 then []
  else
    recv_all_go running size sched.tail (bs.drop (chunk_size size sched bs acc))
      (acc ++ bs.take (chunk_size size sched bs acc))
termination_by bs.length
decreasing_by
  simp only [List.length_drop, chunk_size]
  omega

/-- `_recv_all` entered with the empty accumulator, as every call site does. -/
def recv_all (running : Bool) (size : Nat) (sched bs : List Nat) : List Nat :=
  recv_all_go running size sched bs []

/-- What `_recv_all` returns when `self.running` holds, independently of the
short-read schedule (proved as `recv_all_spec` below): the first `size` bytes
when the peer delivers at least that many before closing, `b''` otherwise.
`_handle_client` is embedded against this characterization. -/
def read_bytes (size : Nat) (bs : List Nat) : List Nat :=
  if size ≤ bs.length then bs.take size else []

/-- Embedding of `TcpCameraServer._handle_client` (src/tcp_camera_server.py:71).
`decode` stands for `QImage.loadFromData` plus the `isNull` check on the
payload bytes; `bs` is the connection's byte stream after the handshake byte.
Returns the list of `frame_ready.emit(camera_id, image)` events, in order.
A short length header or short payload breaks the loop (end of stream); a
payload that fails to decode is skipped and the loop continues at the next
length header. The `self.running` flag is modelled as stable for the call. -/
def handle_client (running : Bool) (decode : List Nat → Option Image)
    (camera_id : Nat) (bs : List Nat) : List (Nat × Image) :=
  if running = false then []
  else if h4 : (read_bytes 4 bs).length < 4 then []
  else if (read_bytes (bytes_be (read_bytes 4 bs)) (bs.drop 4)).length
      < bytes_be (read_bytes 4 bs) then []
  else
    match decode (read_bytes (bytes_be (read_bytes 4 bs)) (bs.drop 4)) with
    | some img =>
        (camera_id, img) ::
          handle_client running decode camera_id
            ((bs.drop 4).drop (bytes_be (read_bytes 4 bs)))
    | none =>
        handle_client running decode camera_id
          ((bs.drop 4).drop (bytes_be (read_bytes 4 bs)))
termination_by bs.length
decreasing_by
  all_goals
    (have hb : 4 ≤ bs.length := by
      by_contra hb
      exact h4 (by simp [read_bytes, hb])
     )
    simp only [List.length_drop]
    omega

/-- A connection handle; `closed` records whether `close()` has been called. -/
structure TcpSocket where
  closed : Bool
deriving DecidableEq

/-- The server's mutable state as read by `TcpCameraServer.stop`:
the running flag, the listening socket, and the tracked
`client_connections` map `camera_id -> socket`. -/
structure ServerState where
  running : Bool
  server_socket : Option TcpSocket
  client_connections : List (Nat × TcpSocket)
deriving DecidableEq

/-- Embedding of `TcpCameraServer.stop` (src/tcp_camera_server.py:126):
clear the running flag, close every tracked client socket, clear the map,
close the listening socket. The second component is the final state of each
client handle the loop touched. -/
def server_stop (st : ServerState) : ServerState × List TcpSocket :=
  ({ running := false
     server_socket := st.server_socket.map (fun s => { s with closed := true })
     client_connections := [] },
   st.client_connections.map (fun p => { p.2 with closed := true }))

/-- How the handshake on one accepted connection can go: the peer closes
before sending the id byte (`recv(1)` returns `b''`), the 5-second receive
timeout fires with the byte never arriving, or an id byte is received. -/
inductive Handshake where
  | closedBeforeByte : Handshake
  | timeoutNoByte : Handshake
  | byteReceived : Nat → Handshake
deriving DecidableEq

/-- What the accept loop leaves behind for one connection: whether the accept
loop closed the client socket, the `client_connections` registration, whether
a reader thread was started, and the frames the reader publishes. -/
structure ConnOutcome where
  socket_closed : Bool
  registered : Option Nat
  reader_started : Bool
  frames_published : List (Nat × Image)
deriving DecidableEq

/-- Embedding of the per-connection part of `TcpCameraServer.run`
(src/tcp_camera_server.py:36): on an empty handshake read the socket is
closed and the loop continues; on a `socket.timeout` the exception is caught
by the accept loop's generic handler, which only prints — the socket is left
open and nothing is registered; on a received byte the reader thread is
started and the connection is registered under that id. -/
def accept_connection (decode : List Nat → Option Image) (stream : List Nat) :
    Handshake → ConnOutcome
  | .closedBeforeByte => ⟨true, none, false, []⟩
  | .timeoutNoByte => ⟨false, none, false, []⟩
  | .byteReceived b => ⟨false, some b, true, handle_client true decode b stream⟩

/-- Modelled from the spec: the per-source video encoder of §4.7 and §7
(`cv2.VideoWriter`, external to this repository). `open` fixes the frame
size; `write` appends a frame exactly when its dimensions match the opening
ones and otherwise drops it, the encoder keeping its original dimensions. -/
structure VideoWriter where
  path : String
  w : Nat
  h : Nat
  frames : List Image
deriving DecidableEq

/-- Modelled from the spec: `cv2.VideoWriter.write` per §4.7/§7 — append the
frame iff its width and height equal those given at open, else drop it. -/
def writer_write (wr : VideoWriter) (img : Image) : VideoWriter :=
  if img.width = wr.w ∧ img.height = wr.h then
    { wr with frames := wr.frames ++ [img] }
  else wr

/-- Python `dict` lookup on the `video_writers` map. -/
def lookup_writer (ws : List (Nat × VideoWriter)) (cid : Nat) : Option VideoWriter :=
  match ws with
  | [] => none
  | (k, w) :: rest => if k = cid then some w else lookup_writer rest cid

/-- Python `dict` update of the entry at `cid` in `video_writers`. -/
def update_writer (ws : List (Nat × VideoWriter)) (cid : Nat) (f : VideoWriter → VideoWriter) :
    List (Nat × VideoWriter) :=
  match ws with
  | [] => []
  | (k, w) :: rest =>
      if k = cid then (k, f w) :: rest else (k, w) :: update_writer rest cid f

/-- The output file stem chosen in `save_frame` (src/main.py:433): id 0 maps
to `cam_high`, every other id to `cam_left_wrist`. -/
def camera_name_of (camera_id : Nat) : String :=
  if camera_id = 0 then "cam_high" else "cam_left_wrist"

/-- The mutable state of `DataCollectionApp` as read and written by the
recording core, plus the current session directory's on-disk artifacts
(`task_info.npz`, the released video files, `robot_data.npz`) and the lines
printed by the handlers. Timestamps and joint values are exact numbers. -/
structure AppState where
  is_recording : Bool
  record_start_time : Option Int
  frame_count : Nat
  video_writers : List (Nat × VideoWriter)
  robot_data_buffer : List (Int × List Int)
  current_record_dir : Option String
  task_instruction : String
  task_type : String
  instruction_locked : Bool
  task_info_artifact : Option (String × String)
  robot_data_artifact : Option (List Int × List (List Int))
  video_files : List (String × List Image)
  log : List String
deriving DecidableEq

/-- The state `DataCollectionApp.__init__` (src/main.py:119) sets up:
not recording, empty writer map, empty telemetry buffer, no session
directory, empty task strings, nothing on disk for a session yet. -/
def initial_state : AppState :=
  { is_recording := false
    record_start_time := none
    frame_count := 0
    video_writers := []
    robot_data_buffer := []
    current_record_dir := none
    task_instruction := ""
    task_type := ""
    instruction_locked := false
    task_info_artifact := none
    robot_data_artifact := none
    video_files := []
    log := [] }

/-- Embedding of `DataCollectionApp.save_frame` (src/main.py:432): pick the
file name from the id, lazily create the writer keyed by the full id with
this frame's width and height, write the frame through the encoder, and
increment `frame_count` unconditionally. No dimension check and no log. -/
def save_frame (st : AppState) (camera_id : Nat) (image : Image) : AppState :=
  let ws1 :=
    if (lookup_writer st.video_writers camera_id).isSome then st.video_writers
    else st.video_writers ++
      [(camera_id,
        VideoWriter.mk (camera_name_of camera_id ++ ".mp4") image.width image.height [])]
  { st with
    video_writers := update_writer ws1 camera_id (fun w => writer_write w image)
    frame_count := st.frame_count + 1 }

/-- Embedding of `DataCollectionApp.on_frame_received` (src/main.py:335):
the preview update is out of scope; while recording the frame is persisted. -/
def on_frame_received (st : AppState) (camera_id : Nat) (image : Image) : AppState :=
  if st.is_recording = true then save_frame st camera_id image else st

/-- Embedding of `DataCollectionApp.on_robot_data_received` (src/main.py:344):
while recording, append the sample to the telemetry buffer. -/
def on_robot_data_received (st : AppState) (timestamp : Int) (qpos : List Int) :
    AppState :=
  if st.is_recording = true then
    { st with robot_data_buffer := st.robot_data_buffer ++ [(timestamp, qpos)] }
  else st

/-- A run of telemetry deliveries, in publication order. -/
def publish_telemetry_seq (st : AppState) (samples : List (Int × List Int)) :
    AppState :=
  samples.foldl (fun s x => on_robot_data_received s x.1 x.2) st

/-- Embedding of `DataCollectionApp.toggle_recording` (src/main.py:385).
`mkdir_ok` tells whether `current_record_dir.mkdir` succeeds; `dir_name` is
the wall-clock session directory name; `now` is `time.time()`. The returned
flag is false when the call raised (the statements after the failing `mkdir`
never run, but the field writes before it stand). The start branch mutates
the recording flag, start time, counters and buffer before attempting
`mkdir`; on success the writer map is reset, the new directory is empty and
`task_info.npz` is written. The stop branch releases every writer into its
file, writes `robot_data.npz` iff the buffer is non-empty, and never clears
the telemetry buffer. -/
def toggle_recording (mkdir_ok : Bool) (dir_name : String) (now : Int)
    (st : AppState) : AppState × Bool :=
  if st.is_recording = false then
    let st1 := { st with
      is_recording := true
      record_start_time := some now
      frame_count := 0
      robot_data_buffer := []
      current_record_dir := some dir_name }
    if mkdir_ok = false then (st1, false)
    else
      ({ st1 with
          video_writers := []
          task_info_artifact := some (st.task_instruction, st.task_type)
          robot_data_artifact := none
          video_files := []
          log := st.log ++ ["Started recording"] }, true)
  else
    let st1 := { st with
      is_recording := false
      record_start_time := none
      video_files := st.video_writers.map
        (fun p : Nat × VideoWriter => (p.2.path, p.2.frames))
      video_writers := [] }
    let st2 :=
      if st.robot_data_buffer = [] then st1
      else
        { st1 with
          robot_data_artifact :=
            some (st.robot_data_buffer.map (fun x : Int × List Int => x.1),
              st.robot_data_buffer.map (fun x : Int × List Int => x.2))
          log := st1.log ++ ["Robot data saved"] }
    ({ st2 with log := st2.log ++ ["Stopped recording"] }, true)

/-- Modelled from the spec: the operator control surface of §6 exposes
`stop_recording()`. In src/main.py the only control entry point is
`toggle_recording`, whose stop actions form the `else` branch and therefore
run only when `is_recording` is true; a stop command issued while Idle
executes none of them. -/
def stop_recording (st : AppState) : AppState :=
  if st.is_recording = true then (toggle_recording true "" 0 st).1 else st

/-- Every frame held by an open encoder has the dimensions the encoder was
opened with (invariant I3 of the spec, restricted to one writer). -/
def writer_ok (wr : VideoWriter) : Prop :=
  ∀ f ∈ wr.frames, f.width = wr.w ∧ f.height = wr.h

/-- Invariant I3 over the whole writer map. -/
def writer_inv (st : AppState) : Prop :=
  ∀ p ∈ st.video_writers, writer_ok p.2

/-- A 640×480 frame, for the dimension-mismatch scenario. -/
def img640 : Image := ⟨640, 480, []⟩

/-- A 320×240 frame, for the dimension-mismatch scenario. -/
def img320 : Image := ⟨320, 240, []⟩

/-- A concrete image decoder for witnesses: accepts exactly the payload `[7]`. -/
def wdecode : List Nat → Option Image :=
  fun bs => if bs = [7] then some (Image.mk 1 1 [7]) else none

/-! ## Helper lemmas about the transport reader -/

/-- Round-trip of the 4-byte big-endian length header. -/
theorem bytes_be_to_be4 (n : Nat) (h : n < 4294967296) :
    bytes_be (to_be4 n) = n := by
  simp only [bytes_be, to_be4, List.foldl_cons, List.foldl_nil]
  omega

/-- Full characterization of the `_recv_all` loop while `self.running` holds,
by induction on the number of deliverable bytes: whatever the short-read
schedule, the loop drains bytes until the accumulator reaches `size`, and an
early close yields `b''`. -/
theorem recv_all_go_spec :
    ∀ (fuel : Nat) (bs : List Nat), bs.length ≤ fuel →
    ∀ (size : Nat) (sched acc : List Nat),
    recv_all_go true size sched bs acc =
      if size ≤ acc.length + bs.length then acc ++ bs.take (size - acc.length)
      else [] := by
  intro fuel
  induction fuel with
  | zero =>
    intro bs hbs size sched acc
    have hbs0 : bs = [] := List.eq_nil_of_length_eq_zero (Nat.le_zero.mp hbs)
    subst hbs0
    rw [recv_all_go]
    by_cases h1 : size ≤ acc.length
    · simp [h1, Nat.sub_eq_zero_of_le h1]
    · simp [h1]
  | succ f ih =>
    intro bs hbs size sched acc
    by_cases h1 : size ≤ acc.length
    · have h1' : size ≤ acc.length + bs.length :=
        le_trans h1 (Nat.le_add_right _ _)
      rw [recv_all_go]
      simp [h1, h1', Nat.sub_eq_zero_of_le h1]
    · by_cases h2 : bs.length = 0
      · have hbs0 : bs = [] := List.eq_nil_of_length_eq_zero h2
        subst hbs0
        rw [recv_all_go]
        simp [h1]
      · rw [recv_all_go, if_neg h1, if_neg (by simp), if_neg h2]
        have hcle : 1 ≤ chunk_size size sched bs acc
            ∧ chunk_size size sched bs acc ≤ bs.length
            ∧ chunk_size size sched bs acc ≤ size - acc.length := by
          simp only [chunk_size]
          omega
        obtain ⟨hca, hcb, hcc⟩ := hcle
        have hlen : (bs.drop (chunk_size size sched bs acc)).length ≤ f := by
          simp only [List.length_drop]
          omega
        rw [ih _ hlen size sched.tail]
        have hl1 : (acc ++ bs.take (chunk_size size sched bs acc)).length
            = acc.length + chunk_size size sched bs acc := by
          simp [List.length_append, List.length_take, Nat.min_eq_left hcb]
        have hl2 : (bs.drop (chunk_size size sched bs acc)).length
            = bs.length - chunk_size size sched bs acc := by
          simp [List.length_drop]
        rw [hl1, hl2]
        by_cases h3 : size ≤ acc.length + bs.length
        · rw [if_pos (by omega), if_pos h3, List.append_assoc]
          congr 1
          rw [show size - acc.length
              = chunk_size size sched bs acc
                + (size - (acc.length + chunk_size size sched bs acc)) from by omega,
            List.take_add]
        · rw [if_neg (by omega), if_neg h3]

/-- `_recv_all` with the empty accumulator: for every short-read schedule it
returns exactly the first `size` bytes when the peer delivers at least `size`
bytes before closing, and `b''` when the connection closes earlier. -/
theorem recv_all_spec (size : Nat) (sched bs : List Nat) :
    recv_all true size sched bs = if size ≤ bs.length then bs.take size else [] := by
  have h := recv_all_go_spec bs.length bs le_rfl size sched []
  simpa [recv_all] using h

/-- The reader loop ends silently when the stream has no complete length
header left. -/
theorem handle_client_short (decode : List Nat → Option Image) (cid : Nat)
    (t : List Nat) (ht : t.length < 4) :
    handle_client true decode cid t = [] := by
  rw [handle_client]
  simp [read_bytes, show ¬ (4 ≤ t.length) from by omega]

/-- One complete wire unit at the head of the stream: the reader consumes it,
emits the frame exactly when the payload decodes, and continues with the rest
of the stream. -/
theorem handle_client_step (decode : List Nat → Option Image) (cid : Nat)
    (p rest : List Nat) (hp : p.length < 4294967296) :
    handle_client true decode cid (encode_unit p ++ rest) =
      (match decode p with
       | some img => [(cid, img)]
       | none => []) ++ handle_client true decode cid rest := by
  have hto4 : (to_be4 p.length).length = 4 := rfl
  have hbs : encode_unit p ++ rest = to_be4 p.length ++ (p ++ rest) := by
    simp [encode_unit, List.append_assoc]
  have h1 : read_bytes 4 (to_be4 p.length ++ (p ++ rest)) = to_be4 p.length := by
    rw [read_bytes, if_pos (by rw [List.length_append, hto4]; omega)]
    exact List.take_left' hto4
  have hbe : bytes_be (to_be4 p.length) = p.length := bytes_be_to_be4 _ hp
  have h2 : (to_be4 p.length ++ (p ++ rest)).drop 4 = p ++ rest :=
    List.drop_left' hto4
  have h3 : read_bytes p.length (p ++ rest) = p := by
    rw [read_bytes, if_pos (by simp)]
    exact List.take_left' rfl
  have h4 : (p ++ rest).drop p.length = rest := List.drop_left' rfl
  rw [hbs, handle_client]
  simp only [h1, hbe, h2, h3, h4, hto4]
  cases hdec : decode p <;> simp [hdec]

/-- A connection that closes after announcing length `n` but before
delivering the full payload: the reader gets `b''` back, logs the incomplete
read and leaves the loop — no frame event, no further protocol action. -/
theorem handle_client_truncated (decode : List Nat → Option Image) (cid : Nat)
    (n : Nat) (p : List Nat) (hn : n < 4294967296) (hp : p.length < n) :
    handle_client true decode cid (to_be4 n ++ p) = [] := by
  have hto4 : (to_be4 n).length = 4 := rfl
  have h1 : read_bytes 4 (to_be4 n ++ p) = to_be4 n := by
    rw [read_bytes, if_pos (by rw [List.length_append, hto4]; omega)]
    exact List.take_left' hto4
  have hbe : bytes_be (to_be4 n) = n := bytes_be_to_be4 _ hn
  have h2 : (to_be4 n ++ p).drop 4 = p := List.drop_left' hto4
  have h3 : read_bytes n p = [] := by
    rw [read_bytes, if_neg (by omega)]
  rw [handle_client]
  simp only [h1, hbe, h2, h3, hto4]
  rw [if_neg (by simp), dif_neg (by omega), if_pos (by simp; omega)]

/-! ## Helper lemmas about the recording session manager -/

/-- Delivering a run of telemetry samples while recording appends them to
the buffer in publication order and touches neither the recording flag nor
the already-persisted telemetry artifact. -/
theorem publish_seq_props (samples : List (Int × List Int)) :
    ∀ st : AppState, st.is_recording = true →
      (publish_telemetry_seq st samples).robot_data_buffer
          = st.robot_data_buffer ++ samples
        ∧ (publish_telemetry_seq st samples).is_recording = true
        ∧ (publish_telemetry_seq st samples).robot_data_artifact
          = st.robot_data_artifact := by
  induction samples with
  | nil =>
    intro st h
    refine ⟨?_, h, rfl⟩
    simp [publish_telemetry_seq]
  | cons x xs ih =>
    intro st h
    have h1 : on_robot_data_received st x.1 x.2 =
        { st with robot_data_buffer := st.robot_data_buffer ++ [(x.1, x.2)] } := by
      simp [on_robot_data_received, h]
    have h3 : publish_telemetry_seq st (x :: xs)
        = publish_telemetry_seq (on_robot_data_received st x.1 x.2) xs := rfl
    have h2 := ih { st with robot_data_buffer := st.robot_data_buffer ++ [(x.1, x.2)] }
      (by simp [h])
    rw [h3, h1]
    refine ⟨?_, h2.2.1, by rw [h2.2.2]⟩
    rw [h2.1]
    simp

/-- Frames appended by the modelled encoder keep invariant I3 for their
writer. -/
theorem writer_write_ok (wr : VideoWriter) (img : Image) (h : writer_ok wr) :
    writer_ok (writer_write wr img) := by
  by_cases hc : img.width = wr.w ∧ img.height = wr.h
  · intro f hf
    simp only [writer_write, if_pos hc] at hf ⊢
    rcases List.mem_append.mp hf with h1 | h2
    · exact h f h1
    · have hfi : f = img := by simpa using h2
      subst hfi
      exact hc
  · simpa [writer_write, if_neg hc] using h

/-- Writing one frame through the writer map preserves invariant I3. -/
theorem update_writer_ok (ws : List (Nat × VideoWriter)) (cid : Nat) (img : Image)
    (h : ∀ p ∈ ws, writer_ok p.2) :
    ∀ p ∈ update_writer ws cid (fun w => writer_write w img), writer_ok p.2 := by
  induction ws with
  | nil => simp [update_writer]
  | cons q rest ih =>
    obtain ⟨k, w⟩ := q
    by_cases hk : k = cid
    · rw [update_writer, if_pos hk]
      intro p hp
      rcases List.mem_cons.mp hp with h1 | h2
      · subst h1
        exact writer_write_ok w img (h (k, w) (List.mem_cons_self _ _))
      · exact h p (List.mem_cons_of_mem _ h2)
    · rw [update_writer, if_neg hk]
      intro p hp
      rcases List.mem_cons.mp hp with h1 | h2
      · subst h1
        exact h (k, w) (List.mem_cons_self _ _)
      · exact ih (fun q hq => h q (List.mem_cons_of_mem _ hq)) p h2

/-- `save_frame` preserves invariant I3: a fresh writer opens with the
incoming frame's dimensions and an existing writer only accepts matching
frames. -/
theorem save_frame_inv (st : AppState) (cid : Nat) (img : Image)
    (h : writer_inv st) : writer_inv (save_frame st cid img) := by
  intro p hp
  simp only [save_frame] at hp
  by_cases hl : (lookup_writer st.video_writers cid).isSome
  · rw [if_pos hl] at hp
    exact update_writer_ok st.video_writers cid img h p hp
  · rw [if_neg hl] at hp
    refine update_writer_ok _ cid img ?_ p hp
    intro q hq
    rcases List.mem_append.mp hq with h1 | h2
    · exact h q h1
    · have hq2 : q = (cid,
          VideoWriter.mk (camera_name_of cid ++ ".mp4") img.width img.height []) := by
        simpa using h2
      subst hq2
      intro f hf
      simp at hf

/-- Emitted-frame count equals the count of decodable payloads. -/
theorem filtermap_decode_length (decode : List Nat → Option Image) (cid : Nat)
    (payloads : List (List Nat)) :
    (payloads.filterMap (fun p => (decode p).map (fun img => (cid, img)))).length
      = payloads.countP (fun p => (decode p).isSome) := by
  induction payloads with
  | nil => simp
  | cons p ps ih =>
    cases hdec : decode p <;> simp [List.countP_cons, hdec, ih]

/-! ## The claims -/

/-- C3: on a connection with a completed handshake, for any sequence of
complete length-prefixed payloads (followed by at most a partial length
header), the frames published are exactly the payloads that decode
successfully, in order — so their number equals the number of fully received,
successfully decoding payloads; a payload that fails to decode is skipped
without terminating the connection and later valid payloads are still
published. -/
theorem claim_C3 (decode : List Nat → Option Image) (cid : Nat)
    (payloads : List (List Nat)) (tail : List Nat)
    (hp : ∀ p ∈ payloads, p.length < 4294967296) (ht : tail.length < 4) :
    handle_client true decode cid
        (payloads.foldr (fun p s => encode_unit p ++ s) tail)
      = payloads.filterMap (fun p => (decode p).map (fun img => (cid, img)))
    ∧ (handle_client true decode cid
        (payloads.foldr (fun p s => encode_unit p ++ s) tail)).length
      = payloads.countP (fun p => (decode p).isSome) := by
  have hmain : ∀ pls : List (List Nat), (∀ p ∈ pls, p.length < 4294967296) →
      handle_client true decode cid
          (pls.foldr (fun p s => encode_unit p ++ s) tail)
        = pls.filterMap (fun p => (decode p).map (fun img => (cid, img))) := by
    intro pls
    induction pls with
    | nil =>
      intro _
      simpa using handle_client_short decode cid tail ht
    | cons p ps ih =>
      intro hp2
      have hpp : p.length < 4294967296 := hp2 p (List.mem_cons_self _ _)
      have hstep := handle_client_step decode cid p
        (ps.foldr (fun q s => encode_unit q ++ s) tail) hpp
      rw [List.foldr_cons, hstep,
        ih (fun q hq => hp2 q (List.mem_cons_of_mem _ hq))]
      cases hdec : decode p <;> simp [hdec]
  exact ⟨hmain payloads hp,
    by rw [hmain payloads hp]; exact filtermap_decode_length decode cid payloads⟩

/-- Witness for C3 at a concrete stream of two payloads, the first decodable
and the second not, with a dangling partial header behind them. -/
theorem claim_C3_witness :
    handle_client true wdecode 0
        ([[7], [8]].foldr (fun p s => encode_unit p ++ s) [9])
      = [(0, Image.mk 1 1 [7])] :=
  (claim_C3 wdecode 0 [[7], [8]] [9] (by decide) (by decide)).1.trans (by decide)

/-- C4: for every announced length `size`, `_recv_all` drains exactly `size`
bytes by repeated receives under any short-read schedule; a connection that
closes before delivering the 4 header bytes or the `size` payload bytes
yields `b''`, which the reader loop treats as end of stream (it stops,
publishing nothing further) rather than as a length-mismatch fault. -/
theorem claim_C4 (size : Nat) (sched bs : List Nat)
    (decode : List Nat → Option Image) (cid : Nat) :
    (size ≤ bs.length →
      recv_all true size sched bs = bs.take size
        ∧ (recv_all true size sched bs).length = size)
    ∧ (bs.length < size → recv_all true size sched bs = [])
    ∧ (∀ t : List Nat, t.length < 4 → handle_client true decode cid t = [])
    ∧ (∀ (n : Nat) (p : List Nat), n < 4294967296 → p.length < n →
        handle_client true decode cid (to_be4 n ++ p) = []) := by
  refine ⟨?_, ?_, ?_, ?_⟩
  · intro h
    have hx := recv_all_spec size sched bs
    rw [if_pos h] at hx
    refine ⟨hx, ?_⟩
    rw [hx]
    simp only [List.length_take]
    omega
  · intro h
    have hx := recv_all_spec size sched bs
    rw [if_neg (by omega)] at hx
    exact hx
  · exact fun t ht => handle_client_short decode cid t ht
  · exact fun n p hn hp => handle_client_truncated decode cid n p hn hp

/-- Witness for C4: a short-read schedule still drains exactly 3 bytes; an
early close yields `b''`; a dangling header and a truncated payload both end
the reader loop with no frame published. -/
theorem claim_C4_witness :
    recv_all true 3 [1, 1, 1, 1] [5, 6, 7, 8] = [5, 6, 7]
    ∧ recv_all true 9 [2] [5, 6] = []
    ∧ handle_client true wdecode 0 [1, 2] = []
    ∧ handle_client true wdecode 0 (to_be4 5 ++ [1, 2]) = [] := by
  refine ⟨?_, ?_, ?_, ?_⟩
  · exact (((claim_C4 3 [1, 1, 1, 1] [5, 6, 7, 8] wdecode 0).1
      (by decide)).1).trans (by decide)
  · exact (claim_C4 9 [2] [5, 6] wdecode 0).2.1 (by decide)
  · exact (claim_C4 2 [] [] wdecode 0).2.2.1 [1, 2] (by decide)
  · exact (claim_C4 2 [] [] wdecode 0).2.2.2 5 [1, 2] (by decide) (by decide)

/-- C7 counterexample: when the handshake byte never arrives because the
5-second receive timeout fires (the peer keeps the connection open but sends
nothing), the accept loop's generic exception handler catches the timeout and
the socket is NOT closed — refuting the claim that every connection whose
handshake byte is never received is closed immediately. No source is
registered and no reader is started, so the rest of the claim holds. -/
theorem claim_C7_counterexample :
    (accept_connection wdecode [] Handshake.timeoutNoByte).socket_closed = false
    ∧ (accept_connection wdecode [] Handshake.timeoutNoByte).registered = none
    ∧ (accept_connection wdecode [] Handshake.timeoutNoByte).reader_started
      = false :=
  ⟨rfl, rfl, rfl⟩

/-- C7 (amended): for every accepted connection on which the handshake byte
is never received, no source is registered, no reader loop is started and no
frame is ever published; the server closes the socket immediately when the
peer closed before sending the byte, while on a handshake timeout the caught
exception leaves the socket unclosed. -/
theorem claim_C7_amended (decode : List Nat → Option Image) (stream : List Nat)
    (h : Handshake)
    (hnb : h = Handshake.closedBeforeByte ∨ h = Handshake.timeoutNoByte) :
    (accept_connection decode stream h).registered = none
    ∧ (accept_connection decode stream h).reader_started = false
    ∧ (accept_connection decode stream h).frames_published = []
    ∧ (h = Handshake.closedBeforeByte →
        (accept_connection decode stream h).socket_closed = true)
    ∧ (h = Handshake.timeoutNoByte →
        (accept_connection decode stream h).socket_closed = false) := by
  rcases hnb with h1 | h1
  · subst h1
    exact ⟨rfl, rfl, rfl, fun _ => rfl, fun hh => absurd hh (by decide)⟩
  · subst h1
    exact ⟨rfl, rfl, rfl, fun hh => absurd hh (by decide), fun _ => rfl⟩

/-- Witness for C7 (amended) at the peer-closed-early handshake. -/
theorem claim_C7_witness :
    (accept_connection wdecode [] Handshake.closedBeforeByte).socket_closed = true
    ∧ (accept_connection wdecode [] Handshake.closedBeforeByte).registered
      = none := by
  have h := claim_C7_amended wdecode [] Handshake.closedBeforeByte (Or.inl rfl)
  exact ⟨h.2.2.2.1 rfl, h.1⟩

/-- C8: after `stop()` the running flag is down, every tracked connection
handle and the listening socket are closed and the tracking map is cleared;
with the flag down the `_recv_all` loop returns at once with its accumulator
and the reader loop performs no further iteration, so no reader continues
indefinitely (a receive blocked on a closed handle fails with `OSError`,
which `_recv_all` maps to `b''` — the closed-stream case of the embedding). -/
theorem claim_C8 (st : ServerState) (decode : List Nat → Option Image) :
    (server_stop st).1.running = false
    ∧ (∀ s ∈ (server_stop st).2, s.closed = true)
    ∧ (server_stop st).1.client_connections = []
    ∧ (∀ s : TcpSocket, (server_stop st).1.server_socket = some s →
        s.closed = true)
    ∧ (∀ (size : Nat) (sched bs acc : List Nat),
        recv_all_go false size sched bs acc = acc)
    ∧ (∀ (cid : Nat) (bs : List Nat), handle_client false decode cid bs = []) := by
  refine ⟨rfl, ?_, rfl, ?_, ?_, ?_⟩
  · intro s hs
    simp only [server_stop, List.mem_map] at hs
    obtain ⟨p, _, hp⟩ := hs
    subst hp
    rfl
  · intro s hs
    cases hso : st.server_socket with
    | none => simp [server_stop, hso] at hs
    | some t =>
      simp only [server_stop, hso, Option.map_some'] at hs
      cases hs
      rfl
  · intro size sched bs acc
    rw [recv_all_go]
    by_cases h1 : size ≤ acc.length
    · rw [if_pos h1]
    · rw [if_neg h1, if_pos rfl]
  · intro cid bs
    rw [handle_client, if_pos rfl]

/-- Witness for C8 at a concrete server state with one tracked connection. -/
theorem claim_C8_witness :
    (server_stop (ServerState.mk true (some (TcpSocket.mk false))
        [(0, TcpSocket.mk false)])).1.running = false
    ∧ (TcpSocket.mk true).closed = true
    ∧ recv_all_go false 5 [] [1, 2, 3] [] = []
    ∧ handle_client false wdecode 0 [1, 2, 3] = [] := by
  have h := claim_C8 (ServerState.mk true (some (TcpSocket.mk false))
    [(0, TcpSocket.mk false)]) wdecode
  exact ⟨h.1, h.2.1 (TcpSocket.mk true) (by decide),
    h.2.2.2.2.1 5 [] [1, 2, 3] [], h.2.2.2.2.2 0 [1, 2, 3]⟩

/-- C1 counterexample: start recording, publish a 640×480 frame to source 0,
then a 320×240 frame to source 0. The second frame is indeed dropped (the
encoder still holds exactly the one 640×480 frame) but `save_frame` performs
no dimension check and emits no log line — the printed-log trace is unchanged
by the mismatched frame, and `frame_count` is even incremented for it. This
refutes the claim's "(logged, not written)": the drop is silent. -/
theorem claim_C1_counterexample :
    lookup_writer
        (on_frame_received
          (on_frame_received (toggle_recording true "s" 0 initial_state).1 0 img640)
          0 img320).video_writers 0
      = some (VideoWriter.mk "cam_high.mp4" 640 480 [img640])
    ∧ (on_frame_received
          (on_frame_received (toggle_recording true "s" 0 initial_state).1 0 img640)
          0 img320).log
      = (on_frame_received (toggle_recording true "s" 0 initial_state).1 0 img640).log
    ∧ (on_frame_received
          (on_frame_received (toggle_recording true "s" 0 initial_state).1 0 img640)
          0 img320).frame_count = 2 :=
  ⟨by decide, by decide, by decide⟩

/-- C1 (amended): once an encoder for a source is open with the dimensions of
the source's first frame, any subsequent frame of differing dimensions is
silently dropped by the encoder (no dimension check or logging in
`save_frame`, which still increments `frame_count`), and every frame held by
any encoder matches that encoder's opening dimensions — an invariant
preserved by every event handler; in particular, after a 640×480 frame then a
320×240 frame to source 0, the session's video artifact holds exactly one
frame, at 640×480. -/
theorem claim_C1_amended :
    (∀ (st : AppState) (cid : Nat) (img : Image),
      writer_inv st → writer_inv (on_frame_received st cid img))
    ∧ (∀ (st : AppState) (ok : Bool) (d : String) (now : Int),
      writer_inv st → writer_inv (toggle_recording ok d now st).1)
    ∧ (∀ (st : AppState) (t : Int) (q : List Int),
      writer_inv st → writer_inv (on_robot_data_received st t q))
    ∧ (toggle_recording true "s" 1
        (on_frame_received
          (on_frame_received (toggle_recording true "s" 0 initial_state).1 0 img640)
          0 img320)).1.video_files
      = [("cam_high.mp4", [img640])] := by
  refine ⟨?_, ?_, ?_, by decide⟩
  · intro st cid img h
    by_cases hr : st.is_recording = true
    · simpa [on_frame_received, hr] using save_frame_inv st cid img h
    · simpa [on_frame_received, hr] using h
  · intro st ok d now h
    by_cases hr : st.is_recording = false
    · by_cases hok : ok = false
      · intro p hp
        simp [toggle_recording, hr, hok] at hp
        exact h p hp
      · intro p hp
        simp [toggle_recording, hr, hok] at hp
    · by_cases hbuf : st.robot_data_buffer = []
      · intro p hp
        simp [toggle_recording, hr, hbuf] at hp
      · intro p hp
        simp [toggle_recording, hr, hbuf] at hp
  · intro st t q h
    by_cases hr : st.is_recording = true
    · intro p hp
      simp [on_robot_data_received, hr] at hp
      exact h p hp
    · intro p hp
      simp [on_robot_data_received, hr] at hp
      exact h p hp

/-- Witness for C1 (amended): the invariant holds of the initial state and is
carried through a frame delivery. -/
theorem claim_C1_witness :
    writer_inv initial_state
    ∧ writer_inv (on_frame_received initial_state 0 img640) := by
  have h0 : writer_inv initial_state := by
    intro p hp
    simp [initial_state] at hp
  exact ⟨h0, claim_C1_amended.1 initial_state 0 img640 h0⟩

/-- C2: evaluation of `toggle_recording` from Idle at the failing input where
the session directory cannot be created (`mkdir` raises). The call raises
(second component false: the statements after `mkdir` never ran, so no
`task_info` artifact is written), yet the recording flag has already been
set, the start time stored and the session path recorded — the state did NOT
remain Idle, contradicting the claim; the code mutates the session state
before attempting to create the directory. -/
theorem claim_C2_bug :
    (toggle_recording false "20260101_000000" 0 initial_state).2 = false
    ∧ (toggle_recording false "20260101_000000" 0 initial_state).1.is_recording
      = true
    ∧ (toggle_recording false "20260101_000000" 0 initial_state).1.record_start_time
      = some 0
    ∧ (toggle_recording false "20260101_000000" 0 initial_state).1.current_record_dir
      = some "20260101_000000"
    ∧ (toggle_recording false "20260101_000000" 0 initial_state).1.task_info_artifact
      = none :=
  ⟨rfl, rfl, rfl, rfl, rfl⟩

/-- C5: for a session started from Idle, the persisted telemetry artifact's
timestamps are exactly the timestamps of the samples published while
Recording, in publication order, with length equal to the sample count, and
the paired qpos array is the corresponding vectors in the same order. -/
theorem claim_C5 (st : AppState) (samples : List (Int × List Int))
    (d e : String) (n m : Int)
    (h0 : st.is_recording = false) (hs : samples ≠ []) :
    (toggle_recording true e m
        (publish_telemetry_seq (toggle_recording true d n st).1
          samples)).1.robot_data_artifact
      = some (samples.map (fun x => x.1), samples.map (fun x => x.2))
    ∧ (samples.map (fun x => x.1)).length = samples.length
    ∧ (samples.map (fun x => x.2)).length = samples.length := by
  have hrec : (toggle_recording true d n st).1.is_recording = true := by
    simp [toggle_recording, h0]
  have hbuf : (toggle_recording true d n st).1.robot_data_buffer = [] := by
    simp [toggle_recording, h0]
  have hp := publish_seq_props samples (toggle_recording true d n st).1 hrec
  have hb2 : (publish_telemetry_seq (toggle_recording true d n st).1
      samples).robot_data_buffer = samples := by
    rw [hp.1, hbuf]
    simp
  have hr2 := hp.2.1
  refine ⟨?_, by simp, by simp⟩
  generalize hX : publish_telemetry_seq (toggle_recording true d n st).1 samples
    = X at hb2 hr2 ⊢
  simp [toggle_recording, hr2, hb2, hs]

/-- Witness for C5 at two concrete samples. -/
theorem claim_C5_witness :
    (toggle_recording true "d" 5
        (publish_telemetry_seq (toggle_recording true "d" 0 initial_state).1
          [(1, [1, 2]), (2, [3, 4])])).1.robot_data_artifact
      = some ([1, 2], [[1, 2], [3, 4]]) :=
  ((claim_C5 initial_state [(1, [1, 2]), (2, [3, 4])] "d" "d" 0 5 rfl
      (by decide)).1).trans (by decide)

/-- C6: a stop command issued while the session manager is Idle is a no-op —
the guarded stop branch never runs, so no artifact is created and the state
is unchanged. -/
theorem claim_C6 (st : AppState) (h : st.is_recording = false) :
    stop_recording st = st := by
  simp [stop_recording, h]

/-- Witness for C6 at the initial Idle state. -/
theorem claim_C6_witness : stop_recording initial_state = initial_state :=
  claim_C6 initial_state rfl

/-- C9: the output file name depends only on whether the source id is 0
(`cam_high` for 0, `cam_left_wrist` for everything else) while encoders are
keyed by the full id: two distinct nonzero ids active in one session open two
separate encoder entries whose paths are both `cam_left_wrist.mp4`. -/
theorem claim_C9 (i j : Nat) (st : AppState) (imgA imgB : Image)
    (hi : i ≠ 0) (hj : j ≠ 0) (hij : i ≠ j) (hw : st.video_writers = []) :
    camera_name_of 0 = "cam_high"
    ∧ camera_name_of i = "cam_left_wrist"
    ∧ camera_name_of j = camera_name_of i
    ∧ lookup_writer (save_frame (save_frame st i imgA) j imgB).video_writers i
      = some (VideoWriter.mk "cam_left_wrist.mp4" imgA.width imgA.height [imgA])
    ∧ lookup_writer (save_frame (save_frame st i imgA) j imgB).video_writers j
      = some (VideoWriter.mk "cam_left_wrist.mp4" imgB.width imgB.height [imgB]) := by
  have hpath : "cam_left_wrist" ++ ".mp4" = "cam_left_wrist.mp4" := rfl
  refine ⟨rfl, by simp [camera_name_of, hi], by simp [camera_name_of, hi, hj],
    ?_, ?_⟩
  · simp [save_frame, lookup_writer, update_writer, writer_write, hw, hij,
      camera_name_of, hi, hj, hpath]
  · simp [save_frame, lookup_writer, update_writer, writer_write, hw, hij,
      camera_name_of, hi, hj, hpath]

/-- Witness for C9 at ids 1 and 2. -/
theorem claim_C9_witness :
    lookup_writer
        (save_frame (save_frame initial_state 1 (Image.mk 10 10 [])) 2
          (Image.mk 4 4 [])).video_writers 1
      = some (VideoWriter.mk "cam_left_wrist.mp4" 10 10 [Image.mk 10 10 []])
    ∧ lookup_writer
        (save_frame (save_frame initial_state 1 (Image.mk 10 10 [])) 2
          (Image.mk 4 4 [])).video_writers 2
      = some (VideoWriter.mk "cam_left_wrist.mp4" 4 4 [Image.mk 4 4 []]) := by
  have h := claim_C9 1 2 initial_state (Image.mk 10 10 []) (Image.mk 4 4 [])
    (by decide) (by decide) (by decide) rfl
  exact ⟨h.2.2.2.1, h.2.2.2.2⟩

/-- C10: for a session started from Idle, stop-record leaves no telemetry
artifact exactly when zero telemetry samples were buffered during the
session; with at least one sample the artifact is written. -/
theorem claim_C10 (st : AppState) (samples : List (Int × List Int))
    (d e : String) (n m : Int) (h0 : st.is_recording = false) :
    ((toggle_recording true e m
        (publish_telemetry_seq (toggle_recording true d n st).1
          samples)).1.robot_data_artifact = none)
      ↔ samples = [] := by
  have hrec : (toggle_recording true d n st).1.is_recording = true := by
    simp [toggle_recording, h0]
  have hbuf : (toggle_recording true d n st).1.robot_data_buffer = [] := by
    simp [toggle_recording, h0]
  have hart : (toggle_recording true d n st).1.robot_data_artifact = none := by
    simp [toggle_recording, h0]
  have hp := publish_seq_props samples (toggle_recording true d n st).1 hrec
  have hb2 : (publish_telemetry_seq (toggle_recording true d n st).1
      samples).robot_data_buffer = samples := by
    rw [hp.1, hbuf]
    simp
  have hr2 := hp.2.1
  have ha2 : (publish_telemetry_seq (toggle_recording true d n st).1
      samples).robot_data_artifact = none := by
    rw [hp.2.2, hart]
  generalize hX : publish_telemetry_seq (toggle_recording true d n st).1 samples
    = X at hb2 hr2 ha2 ⊢
  by_cases hs : samples = []
  · simp [toggle_recording, hr2, hb2, hs, ha2]
  · simp [toggle_recording, hr2, hb2, hs, ha2]

/-- Witness for C10: a session with zero telemetry samples yields no
telemetry artifact. -/
theorem claim_C10_witness :
    (toggle_recording true "d" 1
        (publish_telemetry_seq (toggle_recording true "d" 0 initial_state).1
          [])).1.robot_data_artifact = none :=
  (claim_C10 initial_state [] "d" "d" 0 1 rfl).mpr rfl
